import Mathlib

/-!
Verification of the vehicle-kill tracking script (`main.py`).

The development shallowly embeds the script's static lookup tables, the
`destroy_handler` event handler (filtering, character-cache update,
rendering), the argument/configuration validation in `main`, and a
small-step interleaving semantics for concurrently executing handler
instances (the only suspension point in the handler is the awaited
character lookup).
-/

/-! ### Static lookup tables (association lists, translated from `main.py`) -/

/-- Dictionary to retrieve faction name by id. -/
def FACTIONS : List (Nat × String) :=
  [(1, "VS"), (2, "NC"), (3, "TR"), (4, "NS")]

/-- Dictionary to retrieve faction ID by name (inverse of `FACTIONS`). -/
def FACTIONS_I : List (String × Nat) := FACTIONS.map (fun p => (p.2, p.1))

/-- Faction colours for rich output. -/
def FACTION_COLOURS : List (Nat × String) :=
  [(0, "white"), (1, "magenta"), (2, "blue"), (3, "red"), (4, "grey")]

/-- Dictionary to retrieve zone name by id. -/
def ZONES : List (Nat × String) :=
  [(2, "Indar"), (4, "Hossin"), (6, "Amerish"), (8, "Esamir"), (344, "Oshur")]

/-- Dictionary to retrieve zone ID by name (inverse of `ZONES`). -/
def ZONES_I : List (String × Nat) := ZONES.map (fun p => (p.2, p.1))

/-- Dictionary to retrieve world name by ID. -/
def WORLDS : List (Nat × String) :=
  [(1, "Connery"), (10, "Miller"), (13, "Cobalt"), (17, "Emerald"),
   (19, "Jaeger"), (40, "SolTech")]

/-- Dictionary to retrieve world ID by name (inverse of `WORLDS`). -/
def WORLDS_I : List (String × Nat) := WORLDS.map (fun p => (p.2, p.1))

/-- Dictionary to retrieve vehicle name by id. -/
def VEHICLES : List (Nat × String) :=
  [(1, "Flash"), (2, "Sunderer"), (3, "Lightning"), (4, "Magrider"),
   (5, "Vanguard"), (6, "Prowler"), (7, "Scythe"), (8, "Reaver"),
   (9, "Mosquito"), (10, "Liberator"), (11, "Galaxy"), (12, "Harasser")]

/-- Vehicle colours for rich output. -/
def VEHICLE_COLOUR : List (Nat × String) :=
  [(1, "orange4"), (2, "orange4"), (3, "orange4"), (12, "orange4"),
   (4, "cyan"), (5, "cyan"), (6, "cyan"),
   (7, "green"), (8, "green"), (9, "green"),
   (10, "blue"), (11, "blue")]

/-- The set of tracked vehicle-type ids: the key set of `VEHICLES`. -/
def trackedVehicleTypes : List Nat := VEHICLES.map Prod.fst

/-- Python f-string interpolation of an optional string: `None` prints as
the four characters `None`. -/
def pyStr : Option String → String
  | some s => s
  | none => "None"

/-! ### Data model -/

/-- A character as returned by the external lookup collaborator
(`CLIENT.get_by_id(auraxium.ps2.Character, char_id)`). -/
structure Character where
  name : String
  faction_id : Nat
deriving DecidableEq

/-- A `VehicleDestroy` event as delivered by the transport collaborator.
The timestamp is kept abstract (a tick value); formatting to a local
wall-clock string is a parameter of the pipeline. -/
structure VehicleDestroy where
  timestamp : Nat
  zone_id : Nat
  world_id : Nat
  vehicle_id : Nat
  character_id : Nat
  attacker_character_id : Nat
  attacker_team_id : Nat
deriving DecidableEq

/-- The configuration values set up in `main` and captured by the handler
closure. `FACTION` is `none` when no home faction was supplied. -/
structure Config where
  CONTINENT : Nat
  SERVER : Nat
  FACTION : Option Nat
deriving DecidableEq

/-- The formatted cache value stored in `CHARS`:
`[faction_colour]{name}[/faction_colour]` (line 201 of `main.py`). -/
def formatChar (c : Character) : String :=
  let fc := pyStr (FACTION_COLOURS.lookup c.faction_id)
  "[" ++ fc ++ "]" ++ c.name ++ "[/" ++ fc ++ "]"

/-- Truthiness of `FACTION and evt.attacker_team_id == FACTION`
(line 182). A Python `int` is falsy exactly when it is `0`. -/
def goodFaction (cfg : Config) (evt : VehicleDestroy) : Bool :=
  match cfg.FACTION with
  | some f => decide (f ≠ 0) && (evt.attacker_team_id == f)
  | none => false

/-- The connective phrase (line 208): underlined exactly when
`good_faction` holds. -/
def killedByStr (cfg : Config) (evt : VehicleDestroy) : String :=
  if goodFaction cfg evt then "[underline]killed by[/underline]" else "killed by"

/-- The coloured vehicle markup (line 192):
`[colour]{vehicle}[/colour]` where a missing colour interpolates as
`None`. -/
def vehicleMarkup (vehicle_id : Nat) (vname : String) : String :=
  let vc := pyStr (VEHICLE_COLOUR.lookup vehicle_id)
  "[" ++ vc ++ "]" ++ vname ++ "[/" ++ vc ++ "]"

/-- One iteration of the cache-update loop (lines 195-201) for a single
character id, run to completion without interleaving: if the id is
cached, nothing happens; otherwise the external lookup is issued (the id
is recorded in the returned issuance list) and, if a character is found,
the formatted name is inserted into the cache (a not-found result leaves
the cache untouched). -/
def resolveOne (lk : Nat → Option Character) (cache : List (Nat × String))
    (id : Nat) : List (Nat × String) × List Nat :=
  match cache.lookup id with
  | some _ => (cache, [])
  | none =>
    match lk id with
    | none => (cache, [id])
    | some c => ((id, formatChar c) :: cache, [id])

/-- The body of `destroy_handler` (lines 175-210) as a sequential function
of the captured configuration, the external lookup collaborator `lk`, the
timestamp formatter `ft`, the current `CHARS` cache and the event.
Returns the updated cache, the list of external lookups issued, and the
printed line (`none` when the event is filtered out). -/
def destroy_handler (cfg : Config) (lk : Nat → Option Character)
    (ft : Nat → String) (cache : List (Nat × String)) (evt : VehicleDestroy) :
    List (Nat × String) × List Nat × Option String :=
  if evt.zone_id ≠ cfg.CONTINENT ∨ evt.world_id ≠ cfg.SERVER then
    (cache, [], none)
  else
    let timestamp := ft evt.timestamp
    match VEHICLES.lookup evt.vehicle_id with
    | none => (cache, [], none)
    | some vname =>
      let vehicle := vehicleMarkup evt.vehicle_id vname
      let r1 := resolveOne lk cache evt.attacker_character_id
      let r2 := resolveOne lk r1.1 evt.character_id
      let attacker := (r2.1.lookup evt.attacker_character_id).getD "Uncached Character"
      let victim := (r2.1.lookup evt.character_id).getD "Uncached Character"
      (r2.1, r1.2 ++ r2.2,
        some (timestamp ++ ": " ++ vehicle ++ "(" ++ victim ++ ") " ++
          killedByStr cfg evt ++ " " ++ attacker))

/-- The EventFilter of the specification, read off lines 178 and 188: an
event passes exactly when its zone and world match the configuration and
its vehicle type is tracked; a passing event is forwarded unchanged. -/
def accept (cfg : Config) (evt : VehicleDestroy) : Option VehicleDestroy :=
  if evt.zone_id ≠ cfg.CONTINENT ∨ evt.world_id ≠ cfg.SERVER then none
  else if (VEHICLES.lookup evt.vehicle_id).isNone then none
  else some evt

/-! ### Substring machinery (for textual-containment statements) -/

/-- `startsWithB hay needle`: `needle` is an initial segment of `hay`. -/
def startsWithB : List Char → List Char → Bool
  | _, [] => true
  | [], _ :: _ => false
  | a :: as, b :: bs => a == b && startsWithB as bs

/-- `hasSubB needle hay`: `needle` occurs contiguously inside `hay`. -/
def hasSubB (needle : List Char) : List Char → Bool
  | [] => needle.isEmpty
  | a :: as => startsWithB (a :: as) needle || hasSubB needle as

/-- `strContains hay sub`: the string `sub` occurs contiguously in `hay`. -/
def strContains (hay sub : String) : Prop :=
  hasSubB sub.data hay.data = true

instance (hay sub : String) : Decidable (strContains hay sub) := by
  unfold strContains; infer_instance

/-! ### Command-line configuration and validation (`main`, lines 142-163) -/

/-- The three validated command-line values. `none` means the option was
not supplied on the command line. -/
structure Args where
  continent : Option String
  server : Option String
  faction : Option String
deriving DecidableEq

/-- `choices=ZONES_I.keys()` of the `--continent` option. -/
def zoneNames : List String := ZONES_I.map Prod.fst

/-- `choices=WORLDS_I.keys()` of the `--server` option. -/
def worldNames : List String := WORLDS_I.map Prod.fst

/-- `choices=FACTIONS_I.keys()` of the `--faction` option. -/
def factionNames : List String := FACTIONS_I.map Prod.fst

/-- argparse handling of one option: an absent option takes the default;
a supplied value outside `choices` is an argparse error (the process
exits before `main`'s body runs). -/
def parseChoice (choices : List String) (dflt : Option String)
    (arg : Option String) : Except String (Option String) :=
  match arg with
  | none => Except.ok dflt
  | some v =>
    if choices.contains v then Except.ok (some v)
    else Except.error ("invalid choice: " ++ v)

/-- Argument parsing and the variable set-up of `main` (lines 142-163):
argparse validates each option against its `choices`; then the body maps
the continent and server names through `ZONES_I` / `WORLDS_I` (exiting
with `Invalid Continent` / `Invalid Server` when absent or unmapped) and
maps the faction name through `FACTIONS_I`, defaulting to `None`. -/
def mainSetup (args : Args) : Except String Config :=
  match parseChoice zoneNames (some "Indar") args.continent with
  | Except.error e => Except.error e
  | Except.ok contN =>
    match parseChoice worldNames (some "Jaeger") args.server with
    | Except.error e => Except.error e
    | Except.ok servN =>
      match parseChoice factionNames none args.faction with
      | Except.error e => Except.error e
      | Except.ok facN =>
        match contN with
        | none => Except.error "Invalid Continent"
        | some c =>
          match ZONES_I.lookup c with
          | none => Except.error "Invalid Continent"
          | some cont =>
            match servN with
            | none => Except.error "Invalid Server"
            | some s =>
              match WORLDS_I.lookup s with
              | none => Except.error "Invalid Server"
              | some serv =>
                Except.ok ⟨cont, serv, facN.bind (fun f => FACTIONS_I.lookup f)⟩

/-- The event pipeline: the registered handler applied to each delivered
event in turn, threading the `CHARS` cache and collecting printed lines. -/
def pipeline (cfg : Config) (lk : Nat → Option Character) (ft : Nat → String) :
    List VehicleDestroy → List (Nat × String) → List String
  | [], _ => []
  | e :: es, cache =>
    let r := destroy_handler cfg lk ft cache e
    match r.2.2 with
    | some line => line :: pipeline cfg lk ft es r.1
    | none => pipeline cfg lk ft es r.1

/-- The whole program: configuration set-up, then — only when set-up
succeeded — the event pipeline. A set-up error means the pipeline never
starts (`none`). -/
def runMain (args : Args) (lk : Nat → Option Character) (ft : Nat → String)
    (events : List VehicleDestroy) : Option (List String) :=
  match mainSetup args with
  | Except.error _ => none
  | Except.ok cfg => some (pipeline cfg lk ft events [])

/-! ### Interleaving semantics of concurrent handler instances

Each in-flight `destroy_handler` invocation that has passed the filter is
modelled by the list of character ids its cache-update loop still has to
process.  The only suspension point in the handler is the awaited
character lookup (line 197); the cache-membership test together with the
issuance of the lookup is one atomic step, and the resumption together
with the cache insertion (line 201) is another, exactly as in the
cooperative scheduler. -/

/-- Progress of one handler instance through the cache-update loop. -/
inductive TaskState where
  | resolving : List Nat → TaskState
  | awaiting : Nat → List Nat → TaskState
  | done : TaskState
deriving DecidableEq

/-- Global state: the shared `CHARS` cache, the concurrent handler
instances, and the log of external lookups issued so far. -/
structure SysState where
  cache : List (Nat × String)
  tasks : List TaskState
  lookups : List Nat
deriving DecidableEq

/-- One scheduler step of the concurrent system. -/
inductive Step (lk : Nat → Option Character) : SysState → SysState → Prop where
  | hit (s : SysState) (i id : Nat) (rest : List Nat)
      (ht : s.tasks[i]? = some (TaskState.resolving (id :: rest)))
      (hc : (s.cache.lookup id).isSome = true) :
      Step lk s ⟨s.cache, s.tasks.set i (TaskState.resolving rest), s.lookups⟩
  | miss (s : SysState) (i id : Nat) (rest : List Nat)
      (ht : s.tasks[i]? = some (TaskState.resolving (id :: rest)))
      (hc : s.cache.lookup id = none) :
      Step lk s ⟨s.cache, s.tasks.set i (TaskState.awaiting id rest),
        s.lookups ++ [id]⟩
  | completeFound (s : SysState) (i id : Nat) (rest : List Nat) (c : Character)
      (ht : s.tasks[i]? = some (TaskState.awaiting id rest))
      (hl : lk id = some c) :
      Step lk s ⟨(id, formatChar c) :: s.cache,
        s.tasks.set i (TaskState.resolving rest), s.lookups⟩
  | completeNotFound (s : SysState) (i id : Nat) (rest : List Nat)
      (ht : s.tasks[i]? = some (TaskState.awaiting id rest))
      (hl : lk id = none) :
      Step lk s ⟨s.cache, s.tasks.set i (TaskState.resolving rest), s.lookups⟩
  | finish (s : SysState) (i : Nat)
      (ht : s.tasks[i]? = some (TaskState.resolving [])) :
      Step lk s ⟨s.cache, s.tasks.set i TaskState.done, s.lookups⟩

/-- Reachability under the scheduler. -/
def Reachable (lk : Nat → Option Character) : SysState → SysState → Prop :=
  Relation.ReflTransGen (Step lk)

/-- A run starts with the empty module-level `CHARS` cache; each task is
given the character ids its event mentions. -/
def initState (pending : List (List Nat)) : SysState :=
  ⟨[], pending.map TaskState.resolving, []⟩

/-- Number of external lookups for `id` currently in flight. -/
def inFlight (s : SysState) (id : Nat) : Nat :=
  s.tasks.countP fun t =>
    match t with
    | TaskState.awaiting j _ => j == id
    | _ => false

/-- Every cache entry is the formatted name of the character the external
lookup returns for its key (true of every reachable cache). -/
def CacheOK (lk : Nat → Option Character) (cache : List (Nat × String)) : Prop :=
  ∀ k v, cache.lookup k = some v → ∃ c, lk k = some c ∧ v = formatChar c

/-! ### Concrete collaborators and states used by witnesses -/

/-- Concrete characters for witness runs. -/
def bob : Character := ⟨"Bob", 3⟩

/-- Concrete characters for witness runs. -/
def alice : Character := ⟨"Alice", 2⟩

/-- A concrete external lookup collaborator. -/
def lkEx : Nat → Option Character
  | 42 => some bob
  | 43 => some alice
  | _ => none

/-- A concrete timestamp formatter. -/
def ftEx : Nat → String := fun _ => "14:32:07"

/-- Two concurrent handler instances, both needing the uncached ids
42 (attacker) and 43 (victim). -/
def cexState0 : SysState := initState [[42, 43], [42, 43]]

/-- Task 0 has missed the cache for 42 and issued a lookup. -/
def cexState1 : SysState :=
  ⟨[], [TaskState.awaiting 42 [43], TaskState.resolving [42, 43]], [42]⟩

/-- Task 1 has also missed the cache for 42: two lookups for 42 in
flight. -/
def cexState2 : SysState :=
  ⟨[], [TaskState.awaiting 42 [43], TaskState.awaiting 42 [43]], [42, 42]⟩

/-- Task 0's lookup for 42 completed and was cached. -/
def cexState3 : SysState :=
  ⟨[(42, formatChar bob)],
   [TaskState.resolving [43], TaskState.awaiting 42 [43]], [42, 42]⟩

/-- Task 1's duplicate lookup for 42 completed and re-inserted the same
value. -/
def cexState4 : SysState :=
  ⟨[(42, formatChar bob), (42, formatChar bob)],
   [TaskState.resolving [43], TaskState.resolving [43]], [42, 42]⟩

/-- Task 0 missed the cache for 43 and issued a lookup. -/
def cexState5 : SysState :=
  ⟨[(42, formatChar bob), (42, formatChar bob)],
   [TaskState.awaiting 43 [], TaskState.resolving [43]], [42, 42, 43]⟩

/-- Task 0's lookup for 43 completed and was cached. -/
def cexState6 : SysState :=
  ⟨[(43, formatChar alice), (42, formatChar bob), (42, formatChar bob)],
   [TaskState.resolving [], TaskState.resolving [43]], [42, 42, 43]⟩

/-- Task 1 hit the cache for 43: no further lookup. -/
def cexState7 : SysState :=
  ⟨[(43, formatChar alice), (42, formatChar bob), (42, formatChar bob)],
   [TaskState.resolving [], TaskState.resolving []], [42, 42, 43]⟩

/-- Task 0 finished. -/
def cexState8 : SysState :=
  ⟨[(43, formatChar alice), (42, formatChar bob), (42, formatChar bob)],
   [TaskState.done, TaskState.resolving []], [42, 42, 43]⟩

/-- Both tasks finished. -/
def cexState9 : SysState :=
  ⟨[(43, formatChar alice), (42, formatChar bob), (42, formatChar bob)],
   [TaskState.done, TaskState.done], [42, 42, 43]⟩

/-! ### Helper lemmas -/

theorem startsWithB_append (xs ys : List Char) :
    startsWithB (xs ++ ys) xs = true := by
  induction xs with
  | nil => simp [startsWithB]
  | cons a as ih => simp [startsWithB, ih]

theorem startsWithB_extend {hay needle : List Char} (post : List Char)
    (h : startsWithB hay needle = true) :
    startsWithB (hay ++ post) needle = true := by
  induction needle generalizing hay with
  | nil => simp [startsWithB]
  | cons b bs ih =>
    cases hay with
    | nil => simp [startsWithB] at h
    | cons a as =>
      simp only [startsWithB, Bool.and_eq_true] at h
      simp only [List.cons_append, startsWithB, Bool.and_eq_true]
      exact ⟨h.1, ih h.2⟩

theorem hasSubB_nil_needle (hay : List Char) : hasSubB [] hay = true := by
  cases hay with
  | nil => rfl
  | cons a as => simp [hasSubB, startsWithB]

theorem hasSubB_of_startsWithB {needle hay : List Char}
    (h : startsWithB hay needle = true) : hasSubB needle hay = true := by
  cases hay with
  | nil =>
    cases needle with
    | nil => rfl
    | cons b bs => simp [startsWithB] at h
  | cons a as => simp [hasSubB, h]

theorem hasSubB_cons {needle hay : List Char} (a : Char)
    (h : hasSubB needle hay = true) : hasSubB needle (a :: hay) = true := by
  simp [hasSubB, h]

theorem hasSubB_append_left {needle hay : List Char} (pre : List Char)
    (h : hasSubB needle hay = true) : hasSubB needle (pre ++ hay) = true := by
  induction pre with
  | nil => simpa using h
  | cons a as ih => exact hasSubB_cons a ih

theorem hasSubB_append_right {needle hay : List Char} (post : List Char)
    (h : hasSubB needle hay = true) : hasSubB needle (hay ++ post) = true := by
  induction hay with
  | nil =>
    simp only [hasSubB, List.isEmpty_iff] at h
    subst h
    exact hasSubB_nil_needle post
  | cons a as ih =>
    simp only [hasSubB, Bool.or_eq_true] at h
    rcases h with h | h
    · exact hasSubB_of_startsWithB (startsWithB_extend post h)
    · exact hasSubB_cons a (ih h)

theorem strContains_self (s : String) : strContains s s := by
  unfold strContains
  have h : startsWithB (s.data ++ []) s.data = true := startsWithB_append s.data []
  rw [List.append_nil] at h
  exact hasSubB_of_startsWithB h

theorem strContains_append_left {b : String} (a : String) {s : String}
    (h : strContains b s) : strContains (a ++ b) s := by
  unfold strContains at h ⊢
  rw [String.data_append]
  exact hasSubB_append_left a.data h

theorem strContains_append_right {a : String} (b : String) {s : String}
    (h : strContains a s) : strContains (a ++ b) s := by
  unfold strContains at h ⊢
  rw [String.data_append]
  exact hasSubB_append_right b.data h

theorem lookup_cons_self {α β : Type} [BEq α] [LawfulBEq α]
    (a : α) (v : β) (l : List (α × β)) :
    ((a, v) :: l).lookup a = some v := by
  simp [List.lookup]

theorem lookup_cons_ne {α β : Type} [BEq α] [LawfulBEq α]
    {k a : α} (v : β) (l : List (α × β)) (h : k ≠ a) :
    ((a, v) :: l).lookup k = l.lookup k := by
  have hb : (k == a) = false := beq_eq_false_iff_ne.mpr h
  simp [List.lookup, hb]

theorem lookup_isSome_mem {l : List (Nat × String)} {id : Nat}
    (h : (l.lookup id).isSome = true) : id ∈ l.map Prod.fst := by
  induction l with
  | nil => simp [List.lookup] at h
  | cons p t ih =>
    obtain ⟨k, v⟩ := p
    by_cases hk : id = k
    · simp [hk]
    · rw [lookup_cons_ne v t hk] at h
      simpa using Or.inr (ih h)

theorem lookup_inv_mem {l : List (Nat × String)} {c : String} {z : Nat}
    (h : (l.map (fun p => (p.2, p.1))).lookup c = some z) :
    z ∈ l.map Prod.fst := by
  induction l with
  | nil => simp [List.lookup] at h
  | cons p t ih =>
    obtain ⟨k, v⟩ := p
    by_cases hc : c = v
    · subst hc
      rw [List.map_cons, lookup_cons_self] at h
      simp at h
      simp [h]
    · rw [List.map_cons, lookup_cons_ne k (t.map fun p => (p.2, p.1)) hc] at h
      simpa using Or.inr (ih h)

/-! ### C6: zone/server filtering -/

/-- C6: a raw event whose zone id differs from the configured zone or
whose world id differs from the configured server yields nothing from the
filter, and the handler performs no identity resolution (no lookup is
issued, the cache is untouched) and renders nothing. -/
theorem C6_zone_server_filter (cfg : Config) (lk : Nat → Option Character)
    (ft : Nat → String) (cache : List (Nat × String)) (evt : VehicleDestroy)
    (h : evt.zone_id ≠ cfg.CONTINENT ∨ evt.world_id ≠ cfg.SERVER) :
    accept cfg evt = none ∧
    destroy_handler cfg lk ft cache evt = (cache, [], none) := by
  constructor
  · unfold accept
    rw [if_pos h]
  · unfold destroy_handler
    rw [if_pos h]

/-- Witness for C6 at a concrete off-zone event. -/
theorem C6_zone_server_filter_witness :
    accept ⟨2, 19, none⟩ ⟨0, 4, 19, 2, 43, 42, 3⟩ = none ∧
    destroy_handler ⟨2, 19, none⟩ lkEx ftEx [] ⟨0, 4, 19, 2, 43, 42, 3⟩ =
      ([], [], none) :=
  C6_zone_server_filter ⟨2, 19, none⟩ lkEx ftEx [] ⟨0, 4, 19, 2, 43, 42, 3⟩
    (by decide)

/-! ### C7: vehicle-type filtering and passthrough -/

/-- C7: an event whose destroyed-vehicle-type id is not tracked yields
nothing from the filter and triggers no resolution and no rendering; an
event with a tracked vehicle type and matching zone/server passes the
filter with its content unchanged. -/
theorem C7_vehicle_filter (cfg : Config) (lk : Nat → Option Character)
    (ft : Nat → String) (cache : List (Nat × String)) (evt : VehicleDestroy) :
    (VEHICLES.lookup evt.vehicle_id = none →
      accept cfg evt = none ∧
      destroy_handler cfg lk ft cache evt = (cache, [], none)) ∧
    (evt.zone_id = cfg.CONTINENT → evt.world_id = cfg.SERVER →
      (VEHICLES.lookup evt.vehicle_id).isSome = true →
      accept cfg evt = some evt) := by
  constructor
  · intro hv
    by_cases h : evt.zone_id ≠ cfg.CONTINENT ∨ evt.world_id ≠ cfg.SERVER
    · exact C6_zone_server_filter cfg lk ft cache evt h
    · constructor
      · unfold accept
        rw [if_neg h, hv]
        rfl
      · unfold destroy_handler
        rw [if_neg h, hv]
  · intro hz hw hv
    have h : ¬(evt.zone_id ≠ cfg.CONTINENT ∨ evt.world_id ≠ cfg.SERVER) := by
      push_neg
      exact ⟨hz, hw⟩
    unfold accept
    rw [if_neg h, if_neg (by simp [Option.isNone_iff_eq_none]; simpa using hv)]

/-- Witness for C7: an untracked vehicle type (99) is dropped without
resolution or rendering; a tracked one (2, the Sunderer) passes through
unchanged. -/
theorem C7_vehicle_filter_witness :
    (accept ⟨2, 19, none⟩ ⟨0, 2, 19, 99, 43, 42, 3⟩ = none ∧
      destroy_handler ⟨2, 19, none⟩ lkEx ftEx [] ⟨0, 2, 19, 99, 43, 42, 3⟩ =
        ([], [], none)) ∧
    accept ⟨2, 19, none⟩ ⟨0, 2, 19, 2, 43, 42, 3⟩ =
      some ⟨0, 2, 19, 2, 43, 42, 3⟩ := by
  constructor
  · exact (C7_vehicle_filter ⟨2, 19, none⟩ lkEx ftEx []
      ⟨0, 2, 19, 99, 43, 42, 3⟩).1 (by decide)
  · exact (C7_vehicle_filter ⟨2, 19, none⟩ lkEx ftEx []
      ⟨0, 2, 19, 2, 43, 42, 3⟩).2 rfl rfl (by decide)

/-! ### C4: cached ids are never looked up again -/

/-- C4: resolving a character id that already has a completed cache entry
returns the cached entry, leaves the cache unchanged and issues no
external lookup. -/
theorem C4_cached_no_lookup (lk : Nat → Option Character)
    (cache : List (Nat × String)) (id : Nat) (v : String)
    (h : cache.lookup id = some v) :
    resolveOne lk cache id = (cache, []) ∧
    (resolveOne lk cache id).1.lookup id = some v := by
  unfold resolveOne
  rw [h]
  exact ⟨rfl, h⟩

/-- Witness for C4 at a concrete cached id. -/
theorem C4_cached_no_lookup_witness :
    resolveOne lkEx [(42, formatChar bob)] 42 = ([(42, formatChar bob)], []) ∧
    (resolveOne lkEx [(42, formatChar bob)] 42).1.lookup 42 =
      some (formatChar bob) :=
  C4_cached_no_lookup lkEx [(42, formatChar bob)] 42 (formatChar bob)
    (by decide)

theorem resolveOne_miss_notfound {lk : Nat → Option Character}
    {cache : List (Nat × String)} {id : Nat}
    (hc : cache.lookup id = none) (hl : lk id = none) :
    resolveOne lk cache id = (cache, [id]) := by
  unfold resolveOne
  rw [hc, hl]

theorem resolveOne_preserves_none {lk : Nat → Option Character}
    {cache : List (Nat × String)} {k : Nat} (id : Nat)
    (hk : cache.lookup k = none) (hlk : lk k = none) :
    (resolveOne lk cache id).1.lookup k = none := by
  unfold resolveOne
  cases h1 : cache.lookup id with
  | some v => exact hk
  | none =>
    cases h2 : lk id with
    | none => exact hk
    | some c =>
      by_cases hki : k = id
      · subst hki
        rw [h2] at hlk
        cases hlk
      · show ((id, formatChar c) :: cache).lookup k = none
        rw [lookup_cons_ne _ _ hki]
        exact hk

theorem destroy_handler_pass (cfg : Config) (lk : Nat → Option Character)
    (ft : Nat → String) (cache : List (Nat × String)) (evt : VehicleDestroy)
    (vname : String)
    (hz : evt.zone_id = cfg.CONTINENT) (hw : evt.world_id = cfg.SERVER)
    (hv : VEHICLES.lookup evt.vehicle_id = some vname) :
    destroy_handler cfg lk ft cache evt =
      ((resolveOne lk (resolveOne lk cache evt.attacker_character_id).1
          evt.character_id).1,
       (resolveOne lk cache evt.attacker_character_id).2 ++
         (resolveOne lk (resolveOne lk cache evt.attacker_character_id).1
           evt.character_id).2,
       some (ft evt.timestamp ++ ": " ++ vehicleMarkup evt.vehicle_id vname ++
         "(" ++
         ((resolveOne lk (resolveOne lk cache evt.attacker_character_id).1
             evt.character_id).1.lookup evt.character_id).getD
           "Uncached Character" ++ ") " ++
         killedByStr cfg evt ++ " " ++
         ((resolveOne lk (resolveOne lk cache evt.attacker_character_id).1
             evt.character_id).1.lookup evt.attacker_character_id).getD
           "Uncached Character")) := by
  unfold destroy_handler
  rw [if_neg (by push_neg; exact ⟨hz, hw⟩), hv]

/-! ### C3: not-found results are not cached and are retried -/

/-- C3: when the external lookup for the victim's character id returns
not-found, no cache entry is created for that id, and a second handling
of the same event issues a fresh external lookup for it. -/
theorem C3_notfound_not_poisoned (cfg : Config) (lk : Nat → Option Character)
    (ft : Nat → String) (cache : List (Nat × String)) (evt : VehicleDestroy)
    (hz : evt.zone_id = cfg.CONTINENT) (hw : evt.world_id = cfg.SERVER)
    (hv : (VEHICLES.lookup evt.vehicle_id).isSome = true)
    (hc : cache.lookup evt.character_id = none)
    (hl : lk evt.character_id = none) :
    (destroy_handler cfg lk ft cache evt).1.lookup evt.character_id = none ∧
    evt.character_id ∈ (destroy_handler cfg lk ft cache evt).2.1 ∧
    evt.character_id ∈
      (destroy_handler cfg lk ft (destroy_handler cfg lk ft cache evt).1
        evt).2.1 := by
  obtain ⟨vname, hvn⟩ := Option.isSome_iff_exists.mp hv
  have h1 : (resolveOne lk cache evt.attacker_character_id).1.lookup
      evt.character_id = none :=
    resolveOne_preserves_none _ hc hl
  have h2 : resolveOne lk (resolveOne lk cache evt.attacker_character_id).1
      evt.character_id = ((resolveOne lk cache evt.attacker_character_id).1,
        [evt.character_id]) :=
    resolveOne_miss_notfound h1 hl
  rw [destroy_handler_pass cfg lk ft cache evt vname hz hw hvn]
  have h3 : (resolveOne lk (resolveOne lk cache evt.attacker_character_id).1
      evt.character_id).1.lookup evt.character_id = none := by
    rw [h2]
    exact h1
  refine ⟨h3, ?_, ?_⟩
  · rw [h2]
    simp
  · -- the second handling starts from the cache left by the first
    set cache1 := (resolveOne lk (resolveOne lk cache
      evt.attacker_character_id).1 evt.character_id).1 with hc1
    have h4 : (resolveOne lk cache1 evt.attacker_character_id).1.lookup
        evt.character_id = none :=
      resolveOne_preserves_none _ h3 hl
    have h5 : resolveOne lk (resolveOne lk cache1
        evt.attacker_character_id).1 evt.character_id =
        ((resolveOne lk cache1 evt.attacker_character_id).1,
          [evt.character_id]) :=
      resolveOne_miss_notfound h4 hl
    rw [destroy_handler_pass cfg lk ft cache1 evt vname hz hw hvn, h5]
    simp

/-- Witness for C3: victim id 7000 is unknown to the lookup collaborator;
the id stays uncached and is looked up again on a repeat of the event. -/
theorem C3_notfound_not_poisoned_witness :
    (destroy_handler ⟨2, 19, none⟩ lkEx ftEx [] ⟨0, 2, 19, 2, 7000, 42, 3⟩).1.lookup
      7000 = none ∧
    7000 ∈ (destroy_handler ⟨2, 19, none⟩ lkEx ftEx []
      ⟨0, 2, 19, 2, 7000, 42, 3⟩).2.1 ∧
    7000 ∈ (destroy_handler ⟨2, 19, none⟩ lkEx ftEx
      (destroy_handler ⟨2, 19, none⟩ lkEx ftEx []
        ⟨0, 2, 19, 2, 7000, 42, 3⟩).1 ⟨0, 2, 19, 2, 7000, 42, 3⟩).2.1 :=
  C3_notfound_not_poisoned ⟨2, 19, none⟩ lkEx ftEx []
    ⟨0, 2, 19, 2, 7000, 42, 3⟩ rfl rfl (by decide) (by decide) (by decide)

/-! ### C2: the unresolved-participant sentinel -/

/-- C2 counterexample: at a concrete in-zone event whose victim id (7000)
the lookup collaborator does not know, the rendered line uses the string
`Uncached Character` for the unresolved participant and contains no
occurrence of `Unknown`: the claimed sentinel display name `Unknown` is
not what the code renders. -/
theorem C2_unknown_sentinel_counterexample :
    strContains
      (((destroy_handler ⟨2, 19, none⟩ lkEx ftEx []
        ⟨0, 2, 19, 2, 7000, 42, 3⟩).2.2).getD "") "Uncached Character" ∧
    ¬ strContains
      (((destroy_handler ⟨2, 19, none⟩ lkEx ftEx []
        ⟨0, 2, 19, 2, 7000, 42, 3⟩).2.2).getD "") "Unknown" ∧
    ((destroy_handler ⟨2, 19, none⟩ lkEx ftEx []
      ⟨0, 2, 19, 2, 7000, 42, 3⟩).2.2).isSome = true := by
  decide

/-- C2 as amended: for every resolve of a character id whose external
lookup returns not-found, the handler supplies the plain sentinel string
`Uncached Character` (no colour or faction markup) for the unresolved
participant, the rendered output line uses that sentinel rather than
raising an error, and the id is not cached. -/
theorem C2_uncached_sentinel (cfg : Config) (lk : Nat → Option Character)
    (ft : Nat → String) (cache : List (Nat × String)) (evt : VehicleDestroy)
    (hz : evt.zone_id = cfg.CONTINENT) (hw : evt.world_id = cfg.SERVER)
    (hv : (VEHICLES.lookup evt.vehicle_id).isSome = true)
    (hc : cache.lookup evt.character_id = none)
    (hl : lk evt.character_id = none) :
    ((destroy_handler cfg lk ft cache evt).2.2).isSome = true ∧
    strContains (((destroy_handler cfg lk ft cache evt).2.2).getD "")
      "Uncached Character" ∧
    (destroy_handler cfg lk ft cache evt).1.lookup evt.character_id =
      none := by
  obtain ⟨vname, hvn⟩ := Option.isSome_iff_exists.mp hv
  have h1 : (resolveOne lk cache evt.attacker_character_id).1.lookup
      evt.character_id = none :=
    resolveOne_preserves_none _ hc hl
  have h2 : resolveOne lk (resolveOne lk cache evt.attacker_character_id).1
      evt.character_id = ((resolveOne lk cache evt.attacker_character_id).1,
        [evt.character_id]) :=
    resolveOne_miss_notfound h1 hl
  rw [destroy_handler_pass cfg lk ft cache evt vname hz hw hvn, h2]
  refine ⟨rfl, ?_, h1⟩
  show strContains
    (ft evt.timestamp ++ ": " ++ vehicleMarkup evt.vehicle_id vname ++ "(" ++
      (((resolveOne lk cache evt.attacker_character_id).1.lookup
        evt.character_id).getD "Uncached Character") ++ ") " ++
      killedByStr cfg evt ++ " " ++
      (((resolveOne lk cache evt.attacker_character_id).1.lookup
        evt.attacker_character_id).getD "Uncached Character")) _
  rw [h1]
  refine strContains_append_right _ (strContains_append_right _
    (strContains_append_right _ (strContains_append_right _ ?_)))
  exact strContains_append_left _ (strContains_self "Uncached Character")

/-- Witness for the amended C2 at a concrete event with unknown victim
id 7000. -/
theorem C2_uncached_sentinel_witness :
    ((destroy_handler ⟨2, 19, none⟩ lkEx ftEx []
      ⟨0, 2, 19, 2, 7000, 42, 3⟩).2.2).isSome = true ∧
    strContains (((destroy_handler ⟨2, 19, none⟩ lkEx ftEx []
      ⟨0, 2, 19, 2, 7000, 42, 3⟩).2.2).getD "") "Uncached Character" ∧
    (destroy_handler ⟨2, 19, none⟩ lkEx ftEx []
      ⟨0, 2, 19, 2, 7000, 42, 3⟩).1.lookup 7000 = none :=
  C2_uncached_sentinel ⟨2, 19, none⟩ lkEx ftEx []
    ⟨0, 2, 19, 2, 7000, 42, 3⟩ rfl rfl (by decide) (by decide) (by decide)

theorem startsWithB_iff_exists {needle hay : List Char} :
    startsWithB hay needle = true ↔ ∃ rest, hay = needle ++ rest := by
  induction needle generalizing hay with
  | nil =>
    constructor
    · intro _
      exact ⟨hay, by simp⟩
    · intro _
      cases hay <;> rfl
  | cons b bs ih =>
    cases hay with
    | nil =>
      simp [startsWithB]
    | cons a as =>
      simp only [startsWithB, Bool.and_eq_true, beq_iff_eq, ih,
        List.cons_append, List.cons.injEq]
      constructor
      · rintro ⟨rfl, rest, rfl⟩
        exact ⟨rest, rfl, rfl⟩
      · rintro ⟨rest, rfl, rfl⟩
        exact ⟨rfl, rest, rfl⟩

theorem hasSubB_iff_exists {needle hay : List Char} :
    hasSubB needle hay = true ↔ ∃ pre post, hay = pre ++ needle ++ post := by
  induction hay with
  | nil =>
    simp only [hasSubB, List.isEmpty_iff]
    constructor
    · rintro rfl
      exact ⟨[], [], rfl⟩
    · rintro ⟨pre, post, h⟩
      rcases List.append_eq_nil.mp h.symm with ⟨h1, h2⟩
      exact (List.append_eq_nil.mp h1).2
  | cons a as ih =>
    simp only [hasSubB, Bool.or_eq_true, ih, startsWithB_iff_exists]
    constructor
    · rintro (⟨rest, hr⟩ | ⟨pre, post, hp⟩)
      · exact ⟨[], rest, by simpa using hr⟩
      · exact ⟨a :: pre, post, by simp [hp]⟩
    · rintro ⟨pre, post, hp⟩
      cases pre with
      | nil =>
        exact Or.inl ⟨post, by simpa using hp⟩
      | cons p ps =>
        simp only [List.cons_append, List.cons.injEq] at hp
        exact Or.inr ⟨ps, post, hp.2⟩

theorem strContains_trans {a b c : String} (h1 : strContains a b)
    (h2 : strContains b c) : strContains a c := by
  unfold strContains at h1 h2 ⊢
  rw [hasSubB_iff_exists] at h1 h2 ⊢
  obtain ⟨p1, q1, e1⟩ := h1
  obtain ⟨p2, q2, e2⟩ := h2
  refine ⟨p1 ++ p2, q2 ++ q1, ?_⟩
  rw [e1, e2]
  simp [List.append_assoc]

theorem destroy_handler_bothCached (cfg : Config)
    (lk : Nat → Option Character) (ft : Nat → String)
    (cache : List (Nat × String)) (evt : VehicleDestroy)
    (vname a v : String)
    (hz : evt.zone_id = cfg.CONTINENT) (hw : evt.world_id = cfg.SERVER)
    (hv : VEHICLES.lookup evt.vehicle_id = some vname)
    (hA : cache.lookup evt.attacker_character_id = some a)
    (hV : cache.lookup evt.character_id = some v) :
    destroy_handler cfg lk ft cache evt = (cache, [],
      some (ft evt.timestamp ++ ": " ++ vehicleMarkup evt.vehicle_id vname ++
        "(" ++ v ++ ") " ++ killedByStr cfg evt ++ " " ++ a)) := by
  have e1 : resolveOne lk cache evt.attacker_character_id = (cache, []) := by
    unfold resolveOne
    rw [hA]
  have e2 : resolveOne lk cache evt.character_id = (cache, []) := by
    unfold resolveOne
    rw [hV]
  rw [destroy_handler_pass cfg lk ft cache evt vname hz hw hv]
  simp [e1, e2, hA, hV]

/-! ### C8: rendering correctness -/

/-- C8: for an event that passes the filter with both participants
resolved in the cache, the printed line contains the formatted local
timestamp, the vehicle name wrapped in its vehicle-class colour markers,
the victim's and the attacker's names each wrapped in their faction
colour markers, and the phrase `killed by`; the connective phrase
carries underline markup exactly when a home faction is configured and
equals the attacker's team id. -/
theorem C8_render_line (cfg : Config) (lk : Nat → Option Character)
    (ft : Nat → String) (cache : List (Nat × String)) (evt : VehicleDestroy)
    (vname vcol acol vicol : String) (ach vch : Character)
    (hz : evt.zone_id = cfg.CONTINENT) (hw : evt.world_id = cfg.SERVER)
    (hv : VEHICLES.lookup evt.vehicle_id = some vname)
    (hvc : VEHICLE_COLOUR.lookup evt.vehicle_id = some vcol)
    (hA : cache.lookup evt.attacker_character_id = some (formatChar ach))
    (hV : cache.lookup evt.character_id = some (formatChar vch))
    (hca : FACTION_COLOURS.lookup ach.faction_id = some acol)
    (hcv : FACTION_COLOURS.lookup vch.faction_id = some vicol)
    (hFac : ∀ f, cfg.FACTION = some f → f ∈ FACTIONS.map Prod.fst) :
    ((destroy_handler cfg lk ft cache evt).2.2).isSome = true ∧
    strContains (((destroy_handler cfg lk ft cache evt).2.2).getD "")
      (ft evt.timestamp) ∧
    strContains (((destroy_handler cfg lk ft cache evt).2.2).getD "")
      ("[" ++ vcol ++ "]" ++ vname ++ "[/" ++ vcol ++ "]") ∧
    strContains (((destroy_handler cfg lk ft cache evt).2.2).getD "")
      ("[" ++ vicol ++ "]" ++ vch.name ++ "[/" ++ vicol ++ "]") ∧
    strContains (((destroy_handler cfg lk ft cache evt).2.2).getD "")
      ("[" ++ acol ++ "]" ++ ach.name ++ "[/" ++ acol ++ "]") ∧
    strContains (((destroy_handler cfg lk ft cache evt).2.2).getD "")
      "killed by" ∧
    (killedByStr cfg evt = "[underline]killed by[/underline]" ↔
      cfg.FACTION = some evt.attacker_team_id) ∧
    strContains (((destroy_handler cfg lk ft cache evt).2.2).getD "")
      (killedByStr cfg evt) := by
  have key := destroy_handler_bothCached cfg lk ft cache evt vname
    (formatChar ach) (formatChar vch) hz hw hv hA hV
  rw [key]
  have hvm : vehicleMarkup evt.vehicle_id vname =
      "[" ++ vcol ++ "]" ++ vname ++ "[/" ++ vcol ++ "]" := by
    simp [vehicleMarkup, hvc, pyStr]
  have hfa : formatChar ach =
      "[" ++ acol ++ "]" ++ ach.name ++ "[/" ++ acol ++ "]" := by
    simp [formatChar, hca, pyStr]
  have hfv : formatChar vch =
      "[" ++ vicol ++ "]" ++ vch.name ++ "[/" ++ vicol ++ "]" := by
    simp [formatChar, hcv, pyStr]
  have ckb9 : strContains (killedByStr cfg evt) "killed by" := by
    unfold killedByStr
    split <;> decide
  have hiff : (killedByStr cfg evt = "[underline]killed by[/underline]" ↔
      cfg.FACTION = some evt.attacker_team_id) := by
    unfold killedByStr goodFaction
    cases hF : cfg.FACTION with
    | none =>
      show ("killed by" = "[underline]killed by[/underline]" ↔
        (none : Option Nat) = some evt.attacker_team_id)
      exact ⟨fun h => absurd h (by decide), fun h => by simp at h⟩
    | some f =>
      have hf4 := hFac f hF
      have hf0 : f ≠ 0 := by
        simp [FACTIONS] at hf4
        rcases hf4 with rfl | rfl | rfl | rfl <;> decide
      show ((if (decide (f ≠ 0) && (evt.attacker_team_id == f)) = true then
          "[underline]killed by[/underline]" else "killed by") =
          "[underline]killed by[/underline]" ↔
        some f = some evt.attacker_team_id)
      rw [decide_eq_true hf0, Bool.true_and]
      by_cases ht : evt.attacker_team_id = f
      · rw [ht]
        simp
      · have hbt : (evt.attacker_team_id == f) = false :=
          beq_eq_false_iff_ne.mpr ht
        rw [hbt]
        exact ⟨fun h => absurd h (by decide),
          fun h => absurd (Option.some.inj h).symm ht⟩
  have cKB : strContains
      (ft evt.timestamp ++ ": " ++ vehicleMarkup evt.vehicle_id vname ++
        "(" ++ formatChar vch ++ ") " ++ killedByStr cfg evt ++ " " ++
        formatChar ach) (killedByStr cfg evt) :=
    strContains_append_right _ (strContains_append_right _
      (strContains_append_left _ (strContains_self _)))
  refine ⟨rfl, ?_, ?_, ?_, ?_, ?_, hiff, cKB⟩
  · exact strContains_append_right _ (strContains_append_right _
      (strContains_append_right _ (strContains_append_right _
      (strContains_append_right _ (strContains_append_right _
      (strContains_append_right _ (strContains_append_right _
      (strContains_self _))))))))
  · rw [← hvm]
    exact strContains_append_right _ (strContains_append_right _
      (strContains_append_right _ (strContains_append_right _
      (strContains_append_right _ (strContains_append_right _
      (strContains_append_left _ (strContains_self _)))))))
  · rw [← hfv]
    exact strContains_append_right _ (strContains_append_right _
      (strContains_append_right _ (strContains_append_right _
      (strContains_append_left _ (strContains_self _)))))
  · rw [← hfa]
    exact strContains_append_left _ (strContains_self _)
  · exact strContains_trans cKB ckb9

/-- Witness for C8: a Sunderer destroyed on Indar/Jaeger, victim Alice
(NC), attacker Bob (TR), home faction TR (id 3): all parts are present
and the connective phrase is underlined. -/
theorem C8_render_line_witness :
    ((destroy_handler ⟨2, 19, some 3⟩ lkEx ftEx
      [(42, formatChar bob), (43, formatChar alice)]
      ⟨0, 2, 19, 2, 43, 42, 3⟩).2.2).isSome = true ∧
    strContains (((destroy_handler ⟨2, 19, some 3⟩ lkEx ftEx
      [(42, formatChar bob), (43, formatChar alice)]
      ⟨0, 2, 19, 2, 43, 42, 3⟩).2.2).getD "") (ftEx 0) ∧
    strContains (((destroy_handler ⟨2, 19, some 3⟩ lkEx ftEx
      [(42, formatChar bob), (43, formatChar alice)]
      ⟨0, 2, 19, 2, 43, 42, 3⟩).2.2).getD "")
      ("[" ++ "orange4" ++ "]" ++ "Sunderer" ++ "[/" ++ "orange4" ++ "]") ∧
    strContains (((destroy_handler ⟨2, 19, some 3⟩ lkEx ftEx
      [(42, formatChar bob), (43, formatChar alice)]
      ⟨0, 2, 19, 2, 43, 42, 3⟩).2.2).getD "")
      ("[" ++ "blue" ++ "]" ++ alice.name ++ "[/" ++ "blue" ++ "]") ∧
    strContains (((destroy_handler ⟨2, 19, some 3⟩ lkEx ftEx
      [(42, formatChar bob), (43, formatChar alice)]
      ⟨0, 2, 19, 2, 43, 42, 3⟩).2.2).getD "")
      ("[" ++ "red" ++ "]" ++ bob.name ++ "[/" ++ "red" ++ "]") ∧
    strContains (((destroy_handler ⟨2, 19, some 3⟩ lkEx ftEx
      [(42, formatChar bob), (43, formatChar alice)]
      ⟨0, 2, 19, 2, 43, 42, 3⟩).2.2).getD "") "killed by" ∧
    (killedByStr ⟨2, 19, some 3⟩ ⟨0, 2, 19, 2, 43, 42, 3⟩ =
        "[underline]killed by[/underline]" ↔
      (⟨2, 19, some 3⟩ : Config).FACTION = some 3) ∧
    strContains (((destroy_handler ⟨2, 19, some 3⟩ lkEx ftEx
      [(42, formatChar bob), (43, formatChar alice)]
      ⟨0, 2, 19, 2, 43, 42, 3⟩).2.2).getD "")
      (killedByStr ⟨2, 19, some 3⟩ ⟨0, 2, 19, 2, 43, 42, 3⟩) :=
  C8_render_line ⟨2, 19, some 3⟩ lkEx ftEx
    [(42, formatChar bob), (43, formatChar alice)] ⟨0, 2, 19, 2, 43, 42, 3⟩
    "Sunderer" "orange4" "red" "blue" bob alice
    rfl rfl rfl rfl rfl rfl rfl rfl
    (by intro f h; injection h with h2; subst h2; decide)

/-! ### C10: the vehicle-colour table is total over tracked vehicles -/

/-- C10: every vehicle id in the tracked-vehicle dictionary has a colour
in `VEHICLE_COLOUR`, so the markup of an event that passes the vehicle
filter interpolates a real colour and never the Python `None`. -/
theorem C10_vehicle_colour_total (id : Nat)
    (h : (VEHICLES.lookup id).isSome = true) :
    (VEHICLE_COLOUR.lookup id).isSome = true ∧
    pyStr (VEHICLE_COLOUR.lookup id) ≠ "None" ∧
    ¬ strContains (vehicleMarkup id "") "None" := by
  have hm : id ∈ VEHICLES.map Prod.fst := lookup_isSome_mem h
  simp [VEHICLES] at hm
  rcases hm with rfl | rfl | rfl | rfl | rfl | rfl | rfl | rfl | rfl | rfl |
    rfl | rfl <;>
    exact ⟨by decide, by decide, by decide⟩

/-- Witness for C10 at the Sunderer's vehicle id. -/
theorem C10_vehicle_colour_total_witness :
    (VEHICLE_COLOUR.lookup 2).isSome = true ∧
    pyStr (VEHICLE_COLOUR.lookup 2) ≠ "None" ∧
    ¬ strContains (vehicleMarkup 2 "") "None" :=
  C10_vehicle_colour_total 2 (by decide)

/-! ### C9: configuration validation happens before the pipeline -/

theorem ZONES_I_lookup_mem {c : String} {z : Nat}
    (h : ZONES_I.lookup c = some z) : z ∈ ZONES.map Prod.fst :=
  lookup_inv_mem h

theorem WORLDS_I_lookup_mem {c : String} {z : Nat}
    (h : WORLDS_I.lookup c = some z) : z ∈ WORLDS.map Prod.fst :=
  lookup_inv_mem h

theorem FACTIONS_I_lookup_mem {c : String} {z : Nat}
    (h : FACTIONS_I.lookup c = some z) : z ∈ FACTIONS.map Prod.fst :=
  lookup_inv_mem h

/-- C9: a configuration accepted at start-up only carries a zone id, a
server id and (when set) a faction id drawn from the static enumerations;
a supplied continent, server or faction name outside its enumeration
makes set-up fail, in which case the pipeline never starts; and the
tracked vehicle-type set lies inside the static vehicle enumeration. -/
theorem C9_config_validation (args : Args) (lk : Nat → Option Character)
    (ft : Nat → String) (evs : List VehicleDestroy) :
    (∀ cfg, mainSetup args = Except.ok cfg →
      cfg.CONTINENT ∈ ZONES.map Prod.fst ∧
      cfg.SERVER ∈ WORLDS.map Prod.fst ∧
      ∀ f, cfg.FACTION = some f → f ∈ FACTIONS.map Prod.fst) ∧
    (∀ e, mainSetup args = Except.error e →
      runMain args lk ft evs = none) ∧
    (∀ c, args.continent = some c → zoneNames.contains c = false →
      ∃ e, mainSetup args = Except.error e) ∧
    (∀ s, args.server = some s → worldNames.contains s = false →
      ∃ e, mainSetup args = Except.error e) ∧
    (∀ f, args.faction = some f → factionNames.contains f = false →
      ∃ e, mainSetup args = Except.error e) ∧
    (∀ id, id ∈ trackedVehicleTypes → (VEHICLES.lookup id).isSome = true) := by
  refine ⟨?_, ?_, ?_, ?_, ?_, ?_⟩
  · intro cfg h
    unfold mainSetup at h
    repeat' split at h
    all_goals simp at h
    subst h
    refine ⟨ZONES_I_lookup_mem (by assumption),
      WORLDS_I_lookup_mem (by assumption), ?_⟩
    intro f hf
    obtain ⟨g, hg1, hg2⟩ := Option.bind_eq_some.mp hf
    exact FACTIONS_I_lookup_mem hg2
  · intro e he
    simp [runMain, he]
  · intro c hc hcon
    have hmem : c ∉ zoneNames := by simpa using hcon
    refine ⟨"invalid choice: " ++ c, ?_⟩
    simp [mainSetup, parseChoice, hc, hmem]
  · intro s hs hcon
    cases hpc : parseChoice zoneNames (some "Indar") args.continent with
    | error e =>
      refine ⟨e, ?_⟩
      simp [mainSetup, hpc]
    | ok contN =>
      have hmem : s ∉ worldNames := by simpa using hcon
      refine ⟨"invalid choice: " ++ s, ?_⟩
      unfold mainSetup
      rw [hpc]
      simp [parseChoice, hs, hmem]
  · intro f hf hcon
    cases hpc : parseChoice zoneNames (some "Indar") args.continent with
    | error e =>
      refine ⟨e, ?_⟩
      simp [mainSetup, hpc]
    | ok contN =>
      cases hps : parseChoice worldNames (some "Jaeger") args.server with
      | error e =>
        refine ⟨e, ?_⟩
        simp [mainSetup, hpc, hps]
      | ok servN =>
        have hmem : f ∉ factionNames := by simpa using hcon
        refine ⟨"invalid choice: " ++ f, ?_⟩
        unfold mainSetup
        rw [hpc, hps]
        simp [parseChoice, hf, hmem]
  · intro id hid
    unfold trackedVehicleTypes at hid
    simp [VEHICLES] at hid
    rcases hid with rfl | rfl | rfl | rfl | rfl | rfl | rfl | rfl | rfl |
      rfl | rfl | rfl <;> decide

/-- Witness for C9: an unknown continent name makes set-up fail and the
pipeline never starts. -/
theorem C9_config_validation_witness :
    runMain ⟨some "Atlantis", none, none⟩ lkEx ftEx [] = none := by
  obtain ⟨e, he⟩ := (C9_config_validation ⟨some "Atlantis", none, none⟩
    lkEx ftEx []).2.2.1 "Atlantis" rfl (by decide)
  exact (C9_config_validation ⟨some "Atlantis", none, none⟩ lkEx ftEx []).2.1
    e he

/-! ### Steps of the concrete two-handler schedule -/

theorem stepCex01 : Step lkEx cexState0 cexState1 :=
  Step.miss cexState0 0 42 [43] rfl rfl

theorem stepCex12 : Step lkEx cexState1 cexState2 :=
  Step.miss cexState1 1 42 [43] rfl rfl

theorem stepCex23 : Step lkEx cexState2 cexState3 :=
  Step.completeFound cexState2 0 42 [43] bob rfl rfl

theorem stepCex34 : Step lkEx cexState3 cexState4 :=
  Step.completeFound cexState3 1 42 [43] bob rfl rfl

theorem stepCex45 : Step lkEx cexState4 cexState5 :=
  Step.miss cexState4 0 43 [] rfl (by decide)

theorem stepCex56 : Step lkEx cexState5 cexState6 :=
  Step.completeFound cexState5 0 43 [] alice rfl rfl

theorem stepCex67 : Step lkEx cexState6 cexState7 :=
  Step.hit cexState6 1 43 [] rfl (by decide)

theorem stepCex78 : Step lkEx cexState7 cexState8 :=
  Step.finish cexState7 0 rfl

theorem stepCex89 : Step lkEx cexState8 cexState9 :=
  Step.finish cexState8 1 rfl

theorem cexReach02 : Reachable lkEx cexState0 cexState2 :=
  Relation.ReflTransGen.head stepCex01
    (Relation.ReflTransGen.head stepCex12 Relation.ReflTransGen.refl)

theorem cexReach29 : Reachable lkEx cexState2 cexState9 :=
  Relation.ReflTransGen.head stepCex23
    (Relation.ReflTransGen.head stepCex34
    (Relation.ReflTransGen.head stepCex45
    (Relation.ReflTransGen.head stepCex56
    (Relation.ReflTransGen.head stepCex67
    (Relation.ReflTransGen.head stepCex78
    (Relation.ReflTransGen.head stepCex89 Relation.ReflTransGen.refl))))))

/-! ### C1: the lookup for a shared uncached id is not coalesced -/

/-- C1 counterexample: starting from the empty cache, two concurrent
handler instances that both need the uncached character id 42 can reach
(by checking the cache before either lookup returns) a state in which
the external lookup collaborator has been invoked twice for id 42 and
both lookups are simultaneously in flight — refuting `exactly once` and
`at most one in flight`. -/
theorem C1_coalescing_counterexample :
    cexState0.cache.lookup 42 = none ∧
    Reachable lkEx cexState0 cexState2 ∧
    cexState2.lookups.count 42 = 2 ∧
    inFlight cexState2 42 = 2 :=
  ⟨rfl, cexReach02, by decide, by decide⟩

/-- C1 as amended: given concurrent resolve requests for the same
uncached character id, the external lookup may be invoked once per
requester rather than exactly once — there is a schedule of two handlers
in which the lookup for id 42 is issued twice, with both in flight
simultaneously — but each completed lookup writes the same formatted
identity, so when the schedule runs to completion every requester reads
the identical cached identity. -/
theorem C1_duplicate_lookup_schedule :
    Reachable lkEx cexState0 cexState2 ∧
    inFlight cexState2 42 = 2 ∧
    Reachable lkEx cexState0 cexState9 ∧
    cexState9.lookups.count 42 = 2 ∧
    cexState9.cache.lookup 42 = some (formatChar bob) ∧
    cexState9.cache.lookup 43 = some (formatChar alice) ∧
    cexState9.tasks = [TaskState.done, TaskState.done] :=
  ⟨cexReach02, by decide, Relation.ReflTransGen.trans cexReach02 cexReach29,
    by decide, by decide, by decide, rfl⟩

/-! ### C5: cache entries are written once and never change -/

theorem cacheOK_step {lk : Nat → Option Character} {s s2 : SysState}
    (hok : CacheOK lk s.cache) (hs : Step lk s s2) :
    CacheOK lk s2.cache := by
  cases hs with
  | hit i id rest ht hc => exact hok
  | miss i id rest ht hc => exact hok
  | completeNotFound i id rest ht hl => exact hok
  | finish i ht => exact hok
  | completeFound i id rest c ht hl =>
    intro k v hkv
    by_cases hk : k = id
    · subst hk
      rw [lookup_cons_self] at hkv
      exact ⟨c, hl, (Option.some.inj hkv).symm⟩
    · rw [lookup_cons_ne _ _ hk] at hkv
      exact hok k v hkv

theorem cacheOK_reachable {lk : Nat → Option Character}
    {pending : List (List Nat)} {s : SysState}
    (hr : Reachable lk (initState pending) s) : CacheOK lk s.cache := by
  induction hr with
  | refl =>
    intro k v hkv
    simp [initState, List.lookup] at hkv
  | tail hr2 hs ih => exact cacheOK_step ih hs

/-- C5: along any run from the empty start cache, every scheduler step
either leaves the cache unchanged at a given key or performs that key's
single initial insertion (storing the formatted identity the lookup
collaborator returns for it); an entry, once present, is never replaced
by a different value and never removed. -/
theorem C5_cache_write_once (lk : Nat → Option Character)
    (pending : List (List Nat)) (s s2 : SysState) (k : Nat)
    (hr : Reachable lk (initState pending) s) (hs : Step lk s s2) :
    s2.cache.lookup k = s.cache.lookup k ∨
    (s.cache.lookup k = none ∧ ∃ c, lk k = some c ∧
      s2.cache.lookup k = some (formatChar c)) := by
  have hok := cacheOK_reachable hr
  cases hs with
  | hit i id rest ht hc => exact Or.inl rfl
  | miss i id rest ht hc => exact Or.inl rfl
  | completeNotFound i id rest ht hl => exact Or.inl rfl
  | finish i ht => exact Or.inl rfl
  | completeFound i id rest c ht hl =>
    by_cases hk : k = id
    · subst hk
      cases hsk : s.cache.lookup k with
      | none =>
        refine Or.inr ⟨rfl, c, hl, ?_⟩
        rw [lookup_cons_self]
      | some v =>
        obtain ⟨c0, hc0, hv0⟩ := hok k v hsk
        rw [hl] at hc0
        have hcc : c = c0 := Option.some.inj hc0
        subst hcc
        refine Or.inl ?_
        rw [lookup_cons_self, hv0]
    · exact Or.inl (lookup_cons_ne _ _ hk)

/-- Witness for C5 at the first concrete scheduler step (a cache miss:
the cache is unchanged at key 42). -/
theorem C5_cache_write_once_witness :
    cexState1.cache.lookup 42 = cexState0.cache.lookup 42 ∨
    (cexState0.cache.lookup 42 = none ∧ ∃ c, lkEx 42 = some c ∧
      cexState1.cache.lookup 42 = some (formatChar c)) :=
  C5_cache_write_once lkEx [[42, 43], [42, 43]] cexState0 cexState1 42
    Relation.ReflTransGen.refl stepCex01
